import Mathlib

/-!
Shallow embedding of the photobooth repository's core (frame source readiness,
filter engines, render-loop throttling, countdown/capture state machine,
photo compositing, sticker overlay), translated from the TypeScript sources:

  - src/src/types.ts                      (FilterType, Photo)
  - src/src/components/WebcamCapture.tsx  (capturePhoto, runCountdown)
  - src/src/components/FilterOverlay.tsx  (createFilter, initPixiApp, updateFrame)
  - src/src/components/StickersOverlay.tsx (handleUndo, handlePointerDown)
  - src/src/App.tsx                       (handlePhotoCaptured, photosNeeded)
  - src/unnamed/part_000                  (ImageFilter.applyFilter, CPU pixel-buffer engine)
  - src/unnamed/part_001                  (canvas FilterOverlay.updateCanvas, 4-panel capturePhoto)

Pixel channels are modelled as rationals: the browser computes the blend in
floating point and stores into a Uint8ClampedArray, which saturates at 0 and
255; the saturating store is modelled exactly (clampStore), while the
float rounding of the store is below the abstraction level of the claims.
-/

namespace Photobooth

/-- One RGBA pixel of an ImageData buffer; channel values are nominally in
the range 0 to 255. -/
structure Pixel where
  r : ℚ
  g : ℚ
  b : ℚ
  a : ℚ
deriving DecidableEq, Repr

/-- A raster frame: width, height and a row-major pixel buffer, mirroring the
canvas ImageData layout. -/
structure Frame where
  width : ℕ
  height : ℕ
  data : List Pixel
deriving DecidableEq, Repr

/-- The FilterType union from src/src/types.ts. -/
inductive FilterType where
  | none
  | normal
  | sepia
  | vintage
  | noir
  | vivid
  | dreamy
  | blur
  | pixelate
  | pastel
  | smooth
  | sparkle
deriving DecidableEq, Repr

/-! The CPU pixel-buffer engine: ImageFilter.applyFilter in src/unnamed/part_000. -/

/-- Saturating store of a computed channel value into a Uint8ClampedArray
slot: values below 0 store as 0, values above 255 store as 255. -/
def clampStore (x : ℚ) : ℚ := max 0 (min 255 x)

/-- The pastel blend from part_000 line 42: data[i] * 0.8 + 255 * 0.2. -/
def pastelChannel (v : ℚ) : ℚ := v * (8 / 10) + 255 * (2 / 10)

/-- The value that ends up in the buffer after the pastel blend writes back
through the clamped array. -/
def pastelStored (v : ℚ) : ℚ := clampStore (pastelChannel v)

/-- The pastel branch of applyFilter transforms the R, G and B channels of
every pixel and leaves alpha (index i+3) untouched. -/
def pastelPixel (p : Pixel) : Pixel :=
  { r := pastelStored p.r, g := pastelStored p.g, b := pastelStored p.b, a := p.a }

/-- Pastel applied to a whole ImageData buffer (the loop over i in steps of 4). -/
def pastelFrame (f : Frame) : Frame :=
  { f with data := f.data.map pastelPixel }

/-- The switch in applyFilter (part_000 lines 37-68).  The smooth branch
re-draws the image through the canvas context filter blur(1px)
brightness(1.1) and the sparkle branch draws randomly placed antialiased
circles; both are browser-rasterizer transforms whose code is outside this
repository, so they enter the model as function parameters.  The default
case leaves the canvas holding the drawn source image unchanged. -/
def cpuApplyFilter (smoothSem sparkleSem : Frame → Frame)
    (filter : FilterType) (img : Frame) : Frame :=
  match filter with
  | FilterType.pastel => pastelFrame img
  | FilterType.smooth => smoothSem img
  | FilterType.sparkle => sparkleSem img
  | _ => img

/-- The identifiers the CPU engine's switch recognizes. -/
def cpuRecognized : List FilterType :=
  [FilterType.pastel, FilterType.smooth, FilterType.sparkle]

/-! The GPU filter-graph engine: createFilter in src/src/components/FilterOverlay.tsx. -/

/-- One PIXI image operator, carrying exactly the configuration the source
passes to the library: an explicit 5x4 color matrix, a ColorMatrixFilter
built by brightness(b, false) then saturate(s), an AdjustmentFilter with
gamma, saturation, contrast and brightness (library defaults 1 where the
source omits an option), a BlurFilter strength, or the custom pixelate
shader block size. -/
inductive Op where
  | colorMatrix (m : List ℚ)
  | brightnessSaturate (b s : ℚ)
  | adjustment (gamma saturation contrast brightness : ℚ)
  | blurOp (strength : ℚ)
  | pixelateOp (size : ℕ)
deriving DecidableEq, Repr

/-- createFilter (FilterOverlay.tsx lines 19-112): the operator list keyed by
FilterType; the default case returns the empty list. -/
def createFilter : FilterType → List Op
  | FilterType.sepia =>
      [Op.colorMatrix
        [1, 3/10, 3/10, 0, 0,
         8/10, 9/10, 3/10, 0, 0,
         3/10, 3/10, 5/10, 0, 0,
         0, 0, 0, 1, 0]]
  | FilterType.vintage =>
      [Op.brightnessSaturate (9/10) (-(2/10)),
       Op.adjustment (8/10) (8/10) (12/10) 1]
  | FilterType.noir =>
      [Op.colorMatrix
        [33/100, 33/100, 33/100, 0, 0,
         33/100, 33/100, 33/100, 0, 0,
         33/100, 33/100, 33/100, 0, 0,
         0, 0, 0, 1, 0],
       Op.adjustment 1 1 (14/10) (12/10)]
  | FilterType.vivid =>
      [Op.adjustment 1 (15/10) (12/10) (11/10)]
  | FilterType.dreamy =>
      [Op.colorMatrix
        [11/10, 0, 0, 0, 0,
         0, 11/10, 0, 0, 0,
         0, 0, 13/10, 0, 0,
         0, 0, 0, 1, 0],
       Op.blurOp 2,
       Op.adjustment (8/10) (8/10) 1 1]
  | FilterType.blur => [Op.blurOp 4]
  | FilterType.pixelate => [Op.pixelateOp 8]
  | _ => []

/-- The identifiers createFilter's switch recognizes. -/
def gpuRecognized : List FilterType :=
  [FilterType.sepia, FilterType.vintage, FilterType.noir, FilterType.vivid,
   FilterType.dreamy, FilterType.blur, FilterType.pixelate]

/-- The GPU engine renders the video sprite through the operator list in
order (videoSprite.filters = createFilter(filter)); an empty list renders
the sprite unfiltered.  The per-operator raster semantics are the PIXI
shaders, which live outside this repository and enter the model as a
parameter; every theorem below depends only on the operator lists. -/
def gpuApply (sem : Op → Frame → Frame) (filter : FilterType) (img : Frame) : Frame :=
  (createFilter filter).foldl (fun acc op => sem op acc) img

/-- A fixed interpretation of the external operator shaders, used only to
instantiate closed statements; the facts proved about gpuApply hold for an
arbitrary interpretation because the operator lists involved are empty. -/
def opSemFixed : Op → Frame → Frame := fun _ img => img

/-- A fixed interpretation of the external browser raster transforms (the
smooth blur redraw and the sparkle circle drawing), used only to
instantiate closed statements. -/
def frameSemFixed : Frame → Frame := fun img => img

/-! The render-loop throttle: updateCanvas in src/unnamed/part_001 lines 70-123. -/

/-- One requestAnimationFrame step of updateCanvas, reduced to its timing
behavior: if the timestamp is less than 42 ms past the last executed draw it
reschedules without doing work (lastDrawTime unchanged); otherwise the
transform executes and lastDrawTime becomes the timestamp.  The Bool
records whether the transform executed. -/
def updateCanvasStep (lastDrawTime timestamp : ℤ) : Bool × ℤ :=
  if timestamp - lastDrawTime < 42 then (false, lastDrawTime)
  else (true, timestamp)

/-- Running updateCanvas over a list of frame timestamps, collecting the
timestamps of the steps on which the transform actually executed.
lastDrawTime starts at 0 (useRef(0)). -/
def executedTimes (lastDrawTime : ℤ) : List ℤ → List ℤ
  | [] => []
  | t :: ts =>
      if t - lastDrawTime < 42 then executedTimes lastDrawTime ts
      else t :: executedTimes t ts

/-! Output-surface sizing. -/

/-- updateCanvas lines 77-82: on every executed step the canvas is resized
to the video's native dimensions if and only if they differ. -/
def resizeCanvas (canvasW canvasH vidW vidH : ℕ) : ℕ × ℕ :=
  if canvasW ≠ vidW ∨ canvasH ≠ vidH then (vidW, vidH) else (canvasW, canvasH)

/-- The PIXI application's render surface, fixed at creation. -/
structure PixiApp where
  width : ℕ
  height : ℕ
deriving DecidableEq, Repr

/-- initPixiApp (FilterOverlay.tsx lines 140-174): a new application is
created at the video's current dimensions only when none exists yet
(if (!pixiAppRef.current)); an existing application is kept as is — the
renderer is never resized. -/
def initPixiApp (vidW vidH : ℕ) : Option PixiApp → PixiApp
  | Option.none => { width := vidW, height := vidH }
  | Option.some app => app

/-- updateFrame publishes app.view, whose dimensions are the renderer's. -/
def updateFrameSurfaceDims (app : PixiApp) : ℕ × ℕ := (app.width, app.height)

/-! Photo compositing: capturePhoto in WebcamCapture.tsx (single panel) and
in src/unnamed/part_001 lines 275-312 (four-panel strip). -/

/-- Horizontal flip of a frame (ctx.translate(width, 0); ctx.scale(-1, 1);
ctx.drawImage(video, 0, 0)): each row of the buffer is reversed. -/
def mirrorFrame (f : Frame) : Frame :=
  { f with
    data := ((List.range f.height).map
      (fun y => ((f.data.drop (y * f.width)).take f.width).reverse)).flatten }

/-- One panel of a composited photo: the vertical offset it was drawn at,
the mirrored video frame drawn first, and the filtered surface drawn on
top at the same location. -/
structure Panel where
  yOffset : ℕ
  base : Frame
  overlay : Frame
deriving DecidableEq, Repr

/-- A composited photo canvas as a draw plan: its dimensions and its panels. -/
structure Strip where
  width : ℕ
  height : ℕ
  panels : List Panel
deriving DecidableEq, Repr

/-- capturePhoto of WebcamCapture.tsx lines 133-157: guarded on the video
element existing, a published filtered canvas existing and the video being
loaded; when ready it composites one mirrored video frame with the current
filtered surface at full frame size and emits it; otherwise it returns
without emitting. -/
def capturePhoto1 (video : Option Frame) (filteredCanvas : Option Frame)
    (isVideoLoaded : Bool) : Option Strip :=
  match video, filteredCanvas, isVideoLoaded with
  | Option.some v, Option.some fc, true =>
      Option.some
        { width := v.width, height := v.height,
          panels := [{ yOffset := 0, base := mirrorFrame v, overlay := fc }] }
  | _, _, _ => Option.none

/-- capturePhoto of src/unnamed/part_001 lines 275-312: same guard; when
ready it composites a vertical strip of four panels, each drawn at
yOffset i * (panelHeight + 30) from the same single mirrored video frame
and the same single filtered surface, on a canvas of width panelWidth and
height panelHeight * 4 + 30 * 3. -/
def capturePhoto4 (video : Option Frame) (filteredCanvas : Option Frame)
    (isVideoLoaded : Bool) : Option Strip :=
  match video, filteredCanvas, isVideoLoaded with
  | Option.some v, Option.some fc, true =>
      Option.some
        { width := v.width,
          height := v.height * 4 + 30 * 3,
          panels := (List.range 4).map (fun i =>
            { yOffset := i * (v.height + 30), base := mirrorFrame v, overlay := fc }) }
  | _, _, _ => Option.none

/-! The countdown state machine: runCountdown in WebcamCapture.tsx lines
211-237, and its consumer handlePhotoCaptured in App.tsx lines 76-102. -/

/-- The WebcamCapture state the countdown effect reads: the countdown
counter and the three capture preconditions (videoRef.current,
filteredCanvas, isVideoLoaded). -/
structure CaptureState where
  countdown : ℕ
  video : Option Frame
  filteredCanvas : Option Frame
  isVideoLoaded : Bool
deriving DecidableEq, Repr

/-- Frame-source readiness as capturePhoto checks it: a video element, a
published filtered surface, and a loaded video. -/
def captureReady (s : CaptureState) : Bool :=
  s.video.isSome && s.filteredCanvas.isSome && s.isVideoLoaded

/-- One run of the runCountdown effect body.  The effect fires when
isCountdownActive or countdown = 0.  With the countdown active and
positive it beeps, sleeps one second and decrements.  At zero it plays the
capture sound, runs capturePhoto (which emits a Photo only when ready) and
then unconditionally resets the counter to countdownDuration.  Otherwise
nothing happens.  Returns the new state and the emitted photo, if any. -/
def runCountdownStep (countdownDuration : ℕ) (isCountdownActive : Bool)
    (s : CaptureState) : CaptureState × Option Strip :=
  if isCountdownActive = true ∧ 0 < s.countdown then
    ({ s with countdown := s.countdown - 1 }, Option.none)
  else if s.countdown = 0 then
    ({ s with countdown := countdownDuration },
     capturePhoto1 s.video s.filteredCanvas s.isVideoLoaded)
  else (s, Option.none)

/-- A captured Photo as App.tsx stores it: the encoded composite and the
filter that was selected when it was taken.  The id string built from
Date.now() is an opaque label and is not modelled. -/
structure Photo where
  dataUrl : Strip
  filter : FilterType
deriving DecidableEq, Repr

/-- photosNeeded in App.tsx. -/
def photosNeeded : ℕ := 4

/-- The App-level session state: the mounted WebcamCapture's capture state,
the accumulated photos, the selected filter, and isCapturing (the
isCountdownActive prop). -/
structure Session where
  cs : CaptureState
  photos : List Photo
  selectedFilter : FilterType
  isCapturing : Bool
deriving DecidableEq, Repr

/-- handlePhotoCaptured (App.tsx lines 76-102): append the new photo; when
fewer than photosNeeded photos exist after the append, isCapturing is
(re)set to true so the next countdown runs. -/
def handlePhotoCaptured (s : Session) (photoData : Strip) : Session :=
  let s1 := { s with
    photos := s.photos ++ [{ dataUrl := photoData, filter := s.selectedFilter }] }
  if s1.photos.length < photosNeeded then { s1 with isCapturing := true } else s1

/-- One combined step of the session: App renders WebcamCapture only while
photos.length < photosNeeded (App.tsx line 176), so the countdown effect
only runs then; an emitted photo is delivered to handlePhotoCaptured. -/
def sessionStep (s : Session) : Session :=
  if s.photos.length < photosNeeded then
    let r := runCountdownStep 3 s.isCapturing s.cs
    match r.2 with
    | Option.some strip => handlePhotoCaptured { s with cs := r.1 } strip
    | Option.none => { s with cs := r.1 }
  else s

/-- The abstract countdown machine of the spec: Idle or CountingDown. -/
inductive MachineView where
  | idle
  | countingDown (remaining : ℕ)
deriving DecidableEq, Repr

/-- The machine state the session presents: once photosNeeded photos exist
the WebcamCapture is unmounted (Idle); while mounted and capturing it is
CountingDown at the current counter. -/
def machineState (s : Session) : MachineView :=
  if photosNeeded ≤ s.photos.length then MachineView.idle
  else if s.isCapturing then MachineView.countingDown s.cs.countdown
  else MachineView.idle

/-! The sticker overlay: src/src/components/StickersOverlay.tsx. -/

/-- A placed sticker mark (StickerPosition).  The scale and rotation are
computed in the source from Math.random() draws (the rotation through
Math.PI); the realized values enter the model as inputs. -/
structure StickerPosition where
  x : ℚ
  y : ℚ
  sticker : String
  scale : ℚ
  rotation : ℚ
deriving DecidableEq, Repr

/-- handleUndo (lines 132-138): copy the array and pop its last element;
pop on an empty array is a no-op, so the empty sequence maps to itself. -/
def handleUndo (positions : List StickerPosition) : List StickerPosition :=
  positions.dropLast

/-- handlePointerDown (lines 160-173): with no glyph selected or no
resolvable coordinates nothing happens; otherwise the new mark is appended
at the end of the sequence. -/
def handlePointerDown (selectedSticker : String) (coords : Option (ℚ × ℚ))
    (scale rotation : ℚ) (positions : List StickerPosition) : List StickerPosition :=
  if selectedSticker = "" then positions
  else
    match coords with
    | Option.none => positions
    | Option.some c =>
        positions ++
          [{ x := c.1, y := c.2, sticker := selectedSticker,
             scale := scale, rotation := rotation }]

/-- One pointer-down event with its realized random draws. -/
structure PlaceEvent where
  sticker : String
  coords : ℚ × ℚ
  scale : ℚ
  rotation : ℚ
deriving DecidableEq, Repr

/-- The mark a successful placement event appends. -/
def markOf (e : PlaceEvent) : StickerPosition :=
  { x := e.coords.1, y := e.coords.2, sticker := e.sticker,
    scale := e.scale, rotation := e.rotation }

/-- Folding a list of pointer-down events over a starting sequence. -/
def placeAll (events : List PlaceEvent) (init : List StickerPosition) :
    List StickerPosition :=
  events.foldl
    (fun acc e =>
      handlePointerDown e.sticker (Option.some e.coords) e.scale e.rotation acc)
    init

/-! Concrete fixtures used in closed witness and counterexample statements. -/

/-- A concrete 2 by 1 video frame. -/
def frameA : Frame :=
  { width := 2, height := 1, data := [⟨10, 20, 30, 255⟩, ⟨40, 50, 60, 255⟩] }

/-- A concrete 2 by 1 filtered surface. -/
def frameB : Frame :=
  { width := 2, height := 1, data := [⟨1, 2, 3, 4⟩, ⟨5, 6, 7, 8⟩] }

/-- A concrete 1 by 1 black frame. -/
def framePix : Frame :=
  { width := 1, height := 1, data := [⟨0, 0, 0, 255⟩] }

/-- The four-panel strip capturePhoto4 produces from frameA and frameB. -/
def stripA : Strip :=
  { width := 2, height := 94,
    panels := (List.range 4).map (fun i =>
      { yOffset := i * 31, base := mirrorFrame frameA, overlay := frameB }) }

/-- A capture state whose frame source is not ready: no video element, no
published filtered surface, video not loaded, counter at zero. -/
def notReadyState : CaptureState :=
  { countdown := 0, video := Option.none, filteredCanvas := Option.none,
    isVideoLoaded := false }

/-- A ready session about to run a countdown: counter at 3, capturing, no
photos yet. -/
def readySession : Session :=
  { cs := { countdown := 3, video := Option.some frameA,
            filteredCanvas := Option.some frameA, isVideoLoaded := true },
    photos := [], selectedFilter := FilterType.normal, isCapturing := true }

/-- Two concrete pointer-down events with a selected glyph. -/
def demoEvents : List PlaceEvent :=
  [{ sticker := "star", coords := (1, 2), scale := 1, rotation := 0 },
   { sticker := "heart", coords := (3, 4), scale := 11/10, rotation := 1/2 }]

/-! Helper lemmas (shared). -/

/-- Placements with a selected glyph append their marks in event order. -/
theorem placeAll_append (events : List PlaceEvent)
    (hsel : ∀ e ∈ events, e.sticker ≠ "") (init : List StickerPosition) :
    placeAll events init = init ++ events.map markOf := by
  induction events generalizing init with
  | nil => simp [placeAll]
  | cons e es ih =>
      have he : e.sticker ≠ "" := hsel e (List.mem_cons_self e es)
      have hes : ∀ x ∈ es, x.sticker ≠ "" := fun x hx => hsel x (List.mem_cons_of_mem e hx)
      simp only [placeAll, List.foldl_cons] at *
      rw [ih hes]
      simp [handlePointerDown, he, markOf]

/-- Consecutive executed draw times are always at least 42 ms apart,
starting from the previous executed time. -/
theorem executedTimes_chain (ts : List ℤ) : ∀ lastDrawTime : ℤ,
    List.Chain (fun a b => a + 42 ≤ b) lastDrawTime (executedTimes lastDrawTime ts) := by
  induction ts with
  | nil => intro last; exact List.Chain.nil
  | cons t ts ih =>
      intro last
      by_cases h : t - last < 42
      · simpa [executedTimes, h] using ih last
      · have h42 : last + 42 ≤ t := by omega
        simp only [executedTimes, if_neg h]
        exact List.Chain.cons h42 (ih t)

/-- When every gap, starting from the initial lastDrawTime, is at least
42 ms, the transform executes on every step. -/
theorem executedTimes_of_chain (ts : List ℤ) : ∀ lastDrawTime : ℤ,
    List.Chain (fun a b => a + 42 ≤ b) lastDrawTime ts →
    executedTimes lastDrawTime ts = ts := by
  induction ts with
  | nil => intro last _; rfl
  | cons t ts ih =>
      intro last h
      rcases List.chain_cons.mp h with ⟨h1, h2⟩
      have hn : ¬ t - last < 42 := by omega
      simp only [executedTimes, if_neg hn]
      rw [ih t h2]

/-- A not-ready capture attempt emits nothing. -/
theorem capturePhoto1_not_ready (s : CaptureState) (h : captureReady s = false) :
    capturePhoto1 s.video s.filteredCanvas s.isVideoLoaded = Option.none := by
  obtain ⟨cd, video, fc, loaded⟩ := s
  cases video <;> cases fc <;> cases loaded <;> simp_all [captureReady, capturePhoto1]

/-- handlePhotoCaptured appends exactly one photo, whatever branch the
session-progress check takes. -/
theorem handlePhotoCaptured_photos (s : Session) (d : Strip) :
    (handlePhotoCaptured s d).photos =
      s.photos ++ [{ dataUrl := d, filter := s.selectedFilter }] := by
  unfold handlePhotoCaptured
  dsimp only
  split <;> rfl

/-- handlePhotoCaptured leaves the capture state untouched. -/
theorem handlePhotoCaptured_cs (s : Session) (d : Strip) :
    (handlePhotoCaptured s d).cs = s.cs := by
  unfold handlePhotoCaptured
  dsimp only
  split <;> rfl

/-- handlePhotoCaptured keeps a true isCapturing true. -/
theorem handlePhotoCaptured_capturing (s : Session) (d : Strip)
    (h : s.isCapturing = true) : (handlePhotoCaptured s d).isCapturing = true := by
  unfold handlePhotoCaptured
  dsimp only
  split
  · rfl
  · exact h

/-! Claim theorems. -/

/-- C1 counterexample: with the frame source not ready (no video element,
no published filtered surface, video not loaded) and the counter at zero,
the countdown effect emits no Photo — but the countdown state does
advance: the counter is reset from 0 to the configured duration 3. -/
theorem c1_counterexample :
    captureReady notReadyState = false ∧
    (runCountdownStep 3 true notReadyState).2 = Option.none ∧
    notReadyState.countdown = 0 ∧
    (runCountdownStep 3 true notReadyState).1.countdown = 3 := by
  decide

/-- C1 amended: a capture attempt before frame-source readiness emits no
Photo via onPhotoCaptured; however the countdown state is not held — a
capture attempt at counter zero still resets the counter to the configured
duration. -/
theorem c1_not_ready_capture (countdownDuration : ℕ) (isCountdownActive : Bool)
    (s : CaptureState) (h : captureReady s = false) :
    (runCountdownStep countdownDuration isCountdownActive s).2 = Option.none ∧
    (s.countdown = 0 →
      (runCountdownStep countdownDuration isCountdownActive s).1.countdown =
        countdownDuration) := by
  have hnone := capturePhoto1_not_ready s h
  rcases Nat.eq_zero_or_pos s.countdown with h0 | hpos
  · constructor
    · simp [runCountdownStep, h0, hnone]
    · intro _
      simp [runCountdownStep, h0]
  · have hne : s.countdown ≠ 0 := by omega
    constructor
    · by_cases hact : isCountdownActive = true
      · simp [runCountdownStep, hact, hpos]
      · simp [runCountdownStep, hact, hne]
    · intro h0
      exact absurd h0 hne

/-- Witness for the amended C1 at the concrete not-ready state. -/
theorem c1_not_ready_capture_witness :
    captureReady notReadyState = false ∧
    (runCountdownStep 3 true notReadyState).2 = Option.none ∧
    (runCountdownStep 3 true notReadyState).1.countdown = 3 :=
  ⟨by decide, (c1_not_ready_capture 3 true notReadyState (by decide)).1,
   (c1_not_ready_capture 3 true notReadyState (by decide)).2 (by decide)⟩

/-- C2: with readiness established and the countdown active at 3, three
one-second ticks drive the counter 3, 2, 1, 0 with no photo emitted; the
step at zero emits exactly one photo and resets the counter to 3, and the
machine re-arms to CountingDown(3) if fewer than photosNeeded (4) photos
have been taken, else the capture component unmounts and the machine
settles to Idle. -/
theorem c2_countdown_cycle (s : Session) (n : ℕ)
    (hready : captureReady s.cs = true)
    (hact : s.isCapturing = true)
    (hcd : s.cs.countdown = 3)
    (hn : s.photos.length = n)
    (hlt : n < photosNeeded) :
    machineState s = MachineView.countingDown 3 ∧
    (sessionStep s).cs.countdown = 2 ∧
    (sessionStep (sessionStep s)).cs.countdown = 1 ∧
    (sessionStep (sessionStep (sessionStep s))).cs.countdown = 0 ∧
    (sessionStep (sessionStep (sessionStep s))).photos = s.photos ∧
    (sessionStep (sessionStep (sessionStep (sessionStep s)))).photos.length = n + 1 ∧
    (sessionStep (sessionStep (sessionStep (sessionStep s)))).cs.countdown = 3 ∧
    machineState (sessionStep (sessionStep (sessionStep (sessionStep s)))) =
      (if n + 1 < photosNeeded then MachineView.countingDown 3 else MachineView.idle) := by
  obtain ⟨cs, photos, filt, capturing⟩ := s
  obtain ⟨cd, video, fcanvas, loaded⟩ := cs
  dsimp only at hready hact hcd hn ⊢
  subst hact hcd hn
  cases video with
  | none => simp [captureReady] at hready
  | some v =>
  cases fcanvas with
  | none => simp [captureReady] at hready
  | some fcv =>
  cases loaded with
  | false => simp [captureReady] at hready
  | true =>
  have hnle : ¬ (photosNeeded ≤ photos.length) := by omega
  have s1 : sessionStep ⟨⟨3, Option.some v, Option.some fcv, true⟩, photos, filt, true⟩ =
      ⟨⟨2, Option.some v, Option.some fcv, true⟩, photos, filt, true⟩ := by
    simp [sessionStep, hlt, runCountdownStep]
  have s2 : sessionStep ⟨⟨2, Option.some v, Option.some fcv, true⟩, photos, filt, true⟩ =
      ⟨⟨1, Option.some v, Option.some fcv, true⟩, photos, filt, true⟩ := by
    simp [sessionStep, hlt, runCountdownStep]
  have s3 : sessionStep ⟨⟨1, Option.some v, Option.some fcv, true⟩, photos, filt, true⟩ =
      ⟨⟨0, Option.some v, Option.some fcv, true⟩, photos, filt, true⟩ := by
    simp [sessionStep, hlt, runCountdownStep]
  have s4 : sessionStep ⟨⟨0, Option.some v, Option.some fcv, true⟩, photos, filt, true⟩ =
      handlePhotoCaptured ⟨⟨3, Option.some v, Option.some fcv, true⟩, photos, filt, true⟩
        { width := v.width, height := v.height,
          panels := [{ yOffset := 0, base := mirrorFrame v, overlay := fcv }] } := by
    simp [sessionStep, hlt, runCountdownStep, capturePhoto1]
  rw [s1, s2, s3, s4]
  refine ⟨?_, rfl, rfl, rfl, rfl, ?_, ?_, ?_⟩
  · simp [machineState, hnle]
  · rw [handlePhotoCaptured_photos]
    simp
  · rw [handlePhotoCaptured_cs]
  · by_cases hc : photos.length + 1 < photosNeeded
    · have hnle2 : ¬ (photosNeeded ≤ (handlePhotoCaptured
          ⟨⟨3, Option.some v, Option.some fcv, true⟩, photos, filt, true⟩
          { width := v.width, height := v.height,
            panels := [{ yOffset := 0, base := mirrorFrame v, overlay := fcv }] }).photos.length) := by
        rw [handlePhotoCaptured_photos]
        simp only [List.length_append, List.length_cons, List.length_nil]
        omega
      rw [if_pos hc]
      unfold machineState
      rw [if_neg hnle2,
        if_pos (handlePhotoCaptured_capturing _ _ rfl),
        handlePhotoCaptured_cs]
    · have hle2 : photosNeeded ≤ (handlePhotoCaptured
          ⟨⟨3, Option.some v, Option.some fcv, true⟩, photos, filt, true⟩
          { width := v.width, height := v.height,
            panels := [{ yOffset := 0, base := mirrorFrame v, overlay := fcv }] }).photos.length := by
        rw [handlePhotoCaptured_photos]
        simp only [List.length_append, List.length_cons, List.length_nil]
        omega
      rw [if_neg hc]
      unfold machineState
      rw [if_pos hle2]

/-- Witness for C2 at a concrete ready session with no photos yet. -/
theorem c2_countdown_cycle_witness :
    captureReady readySession.cs = true ∧
    (sessionStep (sessionStep (sessionStep (sessionStep readySession)))).photos.length =
      0 + 1 :=
  ⟨by decide,
   (c2_countdown_cycle readySession 0 (by decide) (by decide) (by decide) (by decide)
      (by decide)).2.2.2.2.2.1⟩

/-- C3: for the pastel pixel-buffer transform, every input channel value v
in the range 0 to 255 produces exactly clamp(v * 0.8 + 51, 0, 255); the
stored value equals the unclamped blend, stays between 51 and 255, and
therefore saturates at the bounds and never wraps around. -/
theorem c3_pastel_saturation (v : ℚ) (h0 : 0 ≤ v) (h255 : v ≤ 255) :
    pastelStored v = max 0 (min 255 (v * (8/10) + 51)) ∧
    pastelStored v = v * (8/10) + 51 ∧
    51 ≤ pastelStored v ∧ pastelStored v ≤ 255 := by
  have he : pastelChannel v = v * (8/10) + 51 := by
    unfold pastelChannel; norm_num
  have hub : v * (8/10) + 51 ≤ 255 := by linarith
  have hlb : (0 : ℚ) ≤ v * (8/10) + 51 := by linarith
  have hmin : min 255 (v * (8/10) + 51) = v * (8/10) + 51 := min_eq_right hub
  have hval : pastelStored v = v * (8/10) + 51 := by
    unfold pastelStored clampStore
    rw [he, hmin, max_eq_right hlb]
  refine ⟨?_, hval, ?_, ?_⟩
  · rw [hval, hmin, max_eq_right hlb]
  · rw [hval]; linarith
  · rw [hval]; linarith

/-- Witness for C3 at the concrete channel value 100. -/
theorem c3_pastel_saturation_witness :
    (0 : ℚ) ≤ 100 ∧ (100 : ℚ) ≤ 255 ∧ pastelStored 100 = 100 * (8/10) + 51 :=
  ⟨by norm_num, by norm_num,
   (c3_pastel_saturation 100 (by norm_num) (by norm_num)).2.1⟩

/-- C4: a filter identifier outside an engine's recognized set takes the
default case and yields the identity transform: the GPU engine applies the
empty operator list and the CPU engine leaves the drawn source image
untouched, for every frame. -/
theorem c4_unknown_identity (sem : Op → Frame → Frame)
    (smoothSem sparkleSem : Frame → Frame) (filter : FilterType) (img : Frame) :
    (filter ∉ gpuRecognized → gpuApply sem filter img = img) ∧
    (filter ∉ cpuRecognized → cpuApplyFilter smoothSem sparkleSem filter img = img) := by
  constructor
  · intro h
    cases filter <;> first
      | rfl
      | exact absurd (by decide) h
  · intro h
    cases filter <;> first
      | rfl
      | exact absurd (by decide) h

/-- Witness for C4 at the identifier normal, unknown to both engines. -/
theorem c4_unknown_identity_witness :
    FilterType.normal ∉ gpuRecognized ∧ FilterType.normal ∉ cpuRecognized ∧
    gpuApply opSemFixed FilterType.normal frameA = frameA ∧
    cpuApplyFilter frameSemFixed frameSemFixed FilterType.normal frameA = frameA :=
  ⟨by decide, by decide,
   (c4_unknown_identity opSemFixed frameSemFixed frameSemFixed
      FilterType.normal frameA).1 (by decide),
   (c4_unknown_identity opSemFixed frameSemFixed frameSemFixed
      FilterType.normal frameA).2 (by decide)⟩

/-- C5: the render loop's transform runs at most once per 42 ms window: a
step whose timestamp is less than 42 ms past the last executed draw
reschedules without doing work and without changing lastDrawTime;
consecutive executed draws are always at least 42 ms apart; and when every
timestamp gap, from the initial lastDrawTime on, is at least 42 ms, the
transform executes on every step. -/
theorem c5_throttle_floor :
    (∀ lastDrawTime timestamp : ℤ, timestamp - lastDrawTime < 42 →
        updateCanvasStep lastDrawTime timestamp = (false, lastDrawTime)) ∧
    (∀ (lastDrawTime : ℤ) (ts : List ℤ),
        List.Chain (fun a b => a + 42 ≤ b) lastDrawTime (executedTimes lastDrawTime ts)) ∧
    (∀ (lastDrawTime : ℤ) (ts : List ℤ),
        List.Chain (fun a b => a + 42 ≤ b) lastDrawTime ts →
        executedTimes lastDrawTime ts = ts) := by
  refine ⟨?_, ?_, ?_⟩
  · intro last t h
    simp [updateCanvasStep, h]
  · intro last ts
    exact executedTimes_chain ts last
  · intro last ts h
    exact executedTimes_of_chain ts last h

/-- Witness for C5: a throttled step at 110 after a draw at 100, and a
fully executed run over gaps of 50 ms. -/
theorem c5_throttle_floor_witness :
    updateCanvasStep 100 110 = (false, 100) ∧
    List.Chain (fun a b : ℤ => a + 42 ≤ b) 0 [50, 100, 150] ∧
    executedTimes 0 [50, 100, 150] = [50, 100, 150] := by
  have hch : List.Chain (fun a b : ℤ => a + 42 ≤ b) 0 [50, 100, 150] :=
    List.Chain.cons (by norm_num)
      (List.Chain.cons (by norm_num) (List.Chain.cons (by norm_num) List.Chain.nil))
  exact ⟨c5_throttle_floor.1 100 110 (by decide), hch,
    c5_throttle_floor.2.2 0 [50, 100, 150] hch⟩

/-- C6 counterexample: the two filter-engine realizations are not
functionally equivalent.  On the identifier pastel the CPU pixel-buffer
engine blends every channel toward white (a black pixel becomes 51), while
the GPU engine's catalog has no pastel case, applies the empty operator
list, and returns the frame unchanged. -/
theorem c6_counterexample :
    cpuApplyFilter frameSemFixed frameSemFixed FilterType.pastel framePix ≠
      gpuApply opSemFixed FilterType.pastel framePix := by
  intro h
  have h51 : pastelStored 0 = 51 := by
    unfold pastelStored clampStore pastelChannel
    norm_num
  have hdata : (cpuApplyFilter frameSemFixed frameSemFixed FilterType.pastel framePix).data =
      (gpuApply opSemFixed FilterType.pastel framePix).data := congrArg Frame.data h
  simp [cpuApplyFilter, gpuApply, createFilter, pastelFrame, framePix,
    pastelPixel, h51] at hdata

/-- C6 amended: the two realizations agree exactly on the identifiers
recognized by neither catalog (none and normal), where both are the
identity transform; the recognized catalogs are disjoint, so every
recognized identifier is transformed by one engine and passed through by
the other. -/
theorem c6_engines_agree_on_shared_unknown (sem : Op → Frame → Frame)
    (smoothSem sparkleSem : Frame → Frame) (filter : FilterType) (img : Frame)
    (h : filter ∉ gpuRecognized ∧ filter ∉ cpuRecognized) :
    cpuApplyFilter smoothSem sparkleSem filter img = gpuApply sem filter img := by
  obtain ⟨h1, h2⟩ := h
  cases filter <;> first
    | rfl
    | exact absurd (by decide) h1
    | exact absurd (by decide) h2

/-- Witness for the amended C6 at the identifier normal. -/
theorem c6_engines_agree_witness :
    (FilterType.normal ∉ gpuRecognized ∧ FilterType.normal ∉ cpuRecognized) ∧
    cpuApplyFilter frameSemFixed frameSemFixed FilterType.normal framePix =
      gpuApply opSemFixed FilterType.normal framePix :=
  ⟨⟨by decide, by decide⟩,
   c6_engines_agree_on_shared_unknown opSemFixed frameSemFixed frameSemFixed
     FilterType.normal framePix ⟨by decide, by decide⟩⟩

/-- C7 counterexample: the GPU engine's surface does not track source
dimension changes.  A renderer created while the source was 4 by 3 keeps
publishing a 4 by 3 surface after the source's native dimensions change to
8 by 6, because initPixiApp reuses the existing application and never
resizes the renderer. -/
theorem c7_counterexample :
    updateFrameSurfaceDims
        (initPixiApp 8 6 (Option.some (initPixiApp 4 3 Option.none))) = (4, 3) ∧
    ((4, 3) : ℕ × ℕ) ≠ (8, 6) := by
  decide

/-- C7 amended: the CPU canvas engine resizes its output surface to the
source's current native dimensions on every executed step, so its output
always matches, including after the source's dimensions change; the GPU
engine's surface matches the dimensions the source had when the renderer
was created, and keeps those dimensions thereafter. -/
theorem c7_surface_dims (canvasW canvasH vidW vidH w0 h0 w1 h1 : ℕ)
    (hw : 0 < vidW) (hh : 0 < vidH) :
    resizeCanvas canvasW canvasH vidW vidH = (vidW, vidH) ∧
    updateFrameSurfaceDims (initPixiApp w0 h0 Option.none) = (w0, h0) ∧
    updateFrameSurfaceDims
        (initPixiApp w1 h1 (Option.some (initPixiApp w0 h0 Option.none))) = (w0, h0) := by
  refine ⟨?_, rfl, rfl⟩
  unfold resizeCanvas
  by_cases h : canvasW ≠ vidW ∨ canvasH ≠ vidH
  · simp [h]
  · push_neg at h
    simp [h.1, h.2]

/-- Witness for the amended C7 at concrete dimensions. -/
theorem c7_surface_dims_witness :
    0 < 8 ∧ 0 < 6 ∧ resizeCanvas 4 3 8 6 = (8, 6) ∧
    updateFrameSurfaceDims
        (initPixiApp 8 6 (Option.some (initPixiApp 4 3 Option.none))) = (4, 3) :=
  ⟨by decide, by decide,
   (c7_surface_dims 4 3 8 6 4 3 8 6 (by decide) (by decide)).1,
   (c7_surface_dims 4 3 8 6 4 3 8 6 (by decide) (by decide)).2.2⟩

/-- C8: placing marks M1..Mk by pointer-down events with a glyph selected
builds exactly the sequence of those marks in placement order, and one
undo yields exactly M1..Mk-1 with the order of the remaining marks
preserved. -/
theorem c8_sticker_undo (events : List PlaceEvent)
    (hne : events ≠ []) (hsel : ∀ e ∈ events, e.sticker ≠ "") :
    placeAll events [] = events.map markOf ∧
    handleUndo (placeAll events []) = (events.dropLast).map markOf := by
  have hall : placeAll events [] = events.map markOf := by
    simpa using placeAll_append events hsel []
  refine ⟨hall, ?_⟩
  rw [hall]
  unfold handleUndo
  exact (List.map_dropLast markOf events).symm

/-- Witness for C8 on two concrete placements. -/
theorem c8_sticker_undo_witness :
    demoEvents ≠ [] ∧
    handleUndo (placeAll demoEvents []) = (demoEvents.dropLast).map markOf :=
  ⟨by decide,
   (c8_sticker_undo demoEvents (by decide) (by decide)).2⟩

/-- C9: a four-panel capture composites a vertical strip of width equal to
the frame width and height 4 times the frame height plus 90 (three 30
pixel gaps), whose four panels are all drawn from the same single mirrored
video frame and the same single filtered surface, at vertical offsets
spaced frame height plus 30 apart. -/
theorem c9_four_panel (v fc : Frame) (strip : Strip)
    (h : capturePhoto4 (Option.some v) (Option.some fc) true = Option.some strip) :
    strip.width = v.width ∧
    strip.height = 4 * v.height + 90 ∧
    strip.panels.length = 4 ∧
    (∀ p ∈ strip.panels, p.base = mirrorFrame v ∧ p.overlay = fc) ∧
    strip.panels.map Panel.yOffset =
      [0, v.height + 30, 2 * (v.height + 30), 3 * (v.height + 30)] := by
  simp only [capturePhoto4, Option.some.injEq] at h
  subst h
  refine ⟨rfl, by dsimp; omega, by simp, ?_, ?_⟩
  · intro p hp
    simp only [List.mem_map, List.mem_range] at hp
    obtain ⟨i, _, rfl⟩ := hp
    exact ⟨rfl, rfl⟩
  · have hr : List.range 4 = [0, 1, 2, 3] := by decide
    simp only [List.map_map, hr, List.map_cons, List.map_nil, Function.comp_apply,
      zero_mul, one_mul]

/-- Witness for C9 on a concrete frame and surface. -/
theorem c9_four_panel_witness :
    capturePhoto4 (Option.some frameA) (Option.some frameB) true = Option.some stripA ∧
    stripA.width = frameA.width ∧ stripA.height = 4 * frameA.height + 90 :=
  ⟨by decide,
   (c9_four_panel frameA frameB stripA (by decide)).1,
   (c9_four_panel frameA frameB stripA (by decide)).2.1⟩

/-- C10: undo on the empty sticker sequence is a total, safe no-op: the
pop on a copy of the empty array leaves the sequence empty, so every
reachable sticker-sequence state is handled without error. -/
theorem c10_undo_empty_safe :
    handleUndo ([] : List StickerPosition) = [] := rfl

end Photobooth
